import Mathlib

/-!
Shallow embedding of the tmonitor webhook receiver
(`src/monitor.py` and its serverless variant `src/api/webhook.py`).

JSON values (the payloads Flask hands to the handlers) are modelled by `JVal`.
Python `dict.get` is modelled by `pget`/`pgetD`, which raise (return
`Except.error`) when the receiver is not a dict, exactly as Python's
`AttributeError` does.  Python truthiness (`if not x:`) is `pyTruthy`.
The daily partition file is modelled as `Option (List JVal)`: `none` when the
file does not exist, `some l` when it holds the JSON array `l`.
-/

/-- JSON-like Python values as delivered by `request.get_json()`. -/
inductive JVal where
  | null
  | bool (b : Bool)
  | num (n : Int)
  | str (s : String)
  | arr (xs : List JVal)
  | obj (kvs : List (String × JVal))
deriving Repr

-- Equality recurses through the two nested `List` positions, for which no
-- deriving handler applies; a mutual group keeps the recursion structural.
mutual

/-- Decidable structural equality on `JVal`. -/
def JVal.decEq : (a b : JVal) → Decidable (a = b)
  | .null, .null => isTrue rfl
  | .bool a, .bool b =>
    match inferInstanceAs (Decidable (a = b)) with
    | isTrue h => isTrue (by rw [h])
    | isFalse h => isFalse (fun hc => h (by cases hc; rfl))
  | .num a, .num b =>
    match inferInstanceAs (Decidable (a = b)) with
    | isTrue h => isTrue (by rw [h])
    | isFalse h => isFalse (fun hc => h (by cases hc; rfl))
  | .str a, .str b =>
    match inferInstanceAs (Decidable (a = b)) with
    | isTrue h => isTrue (by rw [h])
    | isFalse h => isFalse (fun hc => h (by cases hc; rfl))
  | .arr a, .arr b =>
    match JVal.decEqList a b with
    | isTrue h => isTrue (by rw [h])
    | isFalse h => isFalse (fun hc => h (by cases hc; rfl))
  | .obj a, .obj b =>
    match JVal.decEqKVs a b with
    | isTrue h => isTrue (by rw [h])
    | isFalse h => isFalse (fun hc => h (by cases hc; rfl))
  | .null, .bool _ | .null, .num _ | .null, .str _ | .null, .arr _ | .null, .obj _
  | .bool _, .null | .bool _, .num _ | .bool _, .str _ | .bool _, .arr _ | .bool _, .obj _
  | .num _, .null | .num _, .bool _ | .num _, .str _ | .num _, .arr _ | .num _, .obj _
  | .str _, .null | .str _, .bool _ | .str _, .num _ | .str _, .arr _ | .str _, .obj _
  | .arr _, .null | .arr _, .bool _ | .arr _, .num _ | .arr _, .str _ | .arr _, .obj _
  | .obj _, .null | .obj _, .bool _ | .obj _, .num _ | .obj _, .str _ | .obj _, .arr _ =>
    isFalse (fun hc => JVal.noConfusion hc)

/-- Decidable equality on lists of `JVal`. -/
def JVal.decEqList : (a b : List JVal) → Decidable (a = b)
  | [], [] => isTrue rfl
  | [], _ :: _ => isFalse (fun hc => List.noConfusion hc)
  | _ :: _, [] => isFalse (fun hc => List.noConfusion hc)
  | x :: xs, y :: ys =>
    match JVal.decEq x y, JVal.decEqList xs ys with
    | isTrue h1, isTrue h2 => isTrue (by rw [h1, h2])
    | isFalse h1, _ => isFalse (fun hc => h1 (by cases hc; rfl))
    | _, isFalse h2 => isFalse (fun hc => h2 (by cases hc; rfl))

/-- Decidable equality on JSON object field lists. -/
def JVal.decEqKVs : (a b : List (String × JVal)) → Decidable (a = b)
  | [], [] => isTrue rfl
  | [], _ :: _ => isFalse (fun hc => List.noConfusion hc)
  | _ :: _, [] => isFalse (fun hc => List.noConfusion hc)
  | (k1, v1) :: xs, (k2, v2) :: ys =>
    match inferInstanceAs (Decidable (k1 = k2)), JVal.decEq v1 v2, JVal.decEqKVs xs ys with
    | isTrue h0, isTrue h1, isTrue h2 => isTrue (by rw [h0, h1, h2])
    | isFalse h0, _, _ => isFalse (fun hc => h0 (by cases hc; rfl))
    | _, isFalse h1, _ => isFalse (fun hc => h1 (by cases hc; rfl))
    | _, _, isFalse h2 => isFalse (fun hc => h2 (by cases hc; rfl))

end

instance : DecidableEq JVal := JVal.decEq

/-- Association-list lookup, first match (Python dicts have unique keys). -/
def jlookup : List (String × JVal) → String → Option JVal
  | [], _ => none
  | (k, v) :: kvs, key => if k = key then some v else jlookup kvs key

/-- Python `o.get(k)`: `None` when the key is absent, the stored value
(which may itself be `None`) when present; raises `AttributeError`
when the receiver is not a dict. -/
def pget (o : JVal) (k : String) : Except String JVal :=
  match o with
  | .obj kvs => .ok ((jlookup kvs k).getD .null)
  | _ => .error "AttributeError"

/-- Python `o.get(k, d)`: the default `d` only when the key is absent. -/
def pgetD (o : JVal) (k : String) (d : JVal) : Except String JVal :=
  match o with
  | .obj kvs => .ok ((jlookup kvs k).getD d)
  | _ => .error "AttributeError"

/-- Python truthiness of a JSON value (`if not x:`). -/
def pyTruthy : JVal → Bool
  | .null => false
  | .bool b => b
  | .num n => n != 0
  | .str s => s != ""
  | .arr xs => !xs.isEmpty
  | .obj kvs => !kvs.isEmpty

/-- Values on which the Python slice `v[:100]` succeeds (strings and lists);
on every other JSON value it raises `TypeError`. -/
def sliceable : JVal → Bool
  | .str _ => true
  | .arr _ => true
  | _ => false

/-!
## `process_tweet_data` (monitor.py lines 55-99, webhook.py lines 41-86)

The loop body builds `tweet_info` for one raw tweet entry.  Field fetches are
evaluated in the order the Python dict literal evaluates them.  After the
record is appended, `logger.info` slices `tweet_info['text'][:100]`, which
raises `TypeError` when the text value is not sliceable; because every raised
exception is caught by the one `except` around the whole loop (collapsing the
result to `[]`), checking sliceability before `pure` is observationally
identical to Python's append-then-log order.
-/

/-- The fields of one `tweet_info` record, or the exception its construction
(or the subsequent log slice) raises. -/
def extractTweetFields (rule_id rule_tag : JVal) (tweet : JVal) :
    Except String (List (String × JVal)) := do
  let id ← pget tweet "id"
  let text ← pgetD tweet "text" (.str "")
  let author ← pgetD tweet "author" (.obj [])
  let author_id ← pget author "id"
  let author_username ← pget author "username"
  let author_name ← pget author "name"
  let created_at ← pget tweet "created_at"
  let retweet_count ← pgetD tweet "retweet_count" (.num 0)
  let like_count ← pgetD tweet "like_count" (.num 0)
  let reply_count ← pgetD tweet "reply_count" (.num 0)
  if !(sliceable text) then throw "TypeError" else
  pure [("id", id),
        ("text", text),
        ("author", .obj [("id", author_id),
                         ("username", author_username),
                         ("name", author_name)]),
        ("created_at", created_at),
        ("metrics", .obj [("retweet_count", retweet_count),
                          ("like_count", like_count),
                          ("reply_count", reply_count)]),
        ("rule_info", .obj [("rule_id", rule_id),
                            ("rule_tag", rule_tag)])]

/-- One `tweet_info` record as built by `monitor.py`. -/
def extractTweet (rule_id rule_tag : JVal) (tweet : JVal) : Except String JVal :=
  (extractTweetFields rule_id rule_tag tweet).map .obj

/-- One `tweet_info` record as built by `api/webhook.py`, which additionally
stores `processed_at: datetime.now().isoformat()`; the wall-clock reading is
the parameter `now`. -/
def extractTweetServerless (now : String) (rule_id rule_tag : JVal) (tweet : JVal) :
    Except String JVal :=
  (extractTweetFields rule_id rule_tag tweet).map
    (fun kvs => .obj (kvs ++ [("processed_at", .str now)]))

/-- The body of the `try:` block of `process_tweet_data`, generic in the
per-entry record builder (the two source variants differ only there).
`for tweet in tweets` is modelled as iteration over a JSON array; when
`tweets` is any non-list value the model raises, as Python does either at the
`for` (non-iterable) or at the first `tweet.get` (strings/dicts iterate to
non-dict elements) — in every such case `process_tweet_data` yields `[]`,
matching Python's observable result. -/
def processTweetsBodyWith (extract : JVal → JVal → JVal → Except String JVal)
    (webhook_data : JVal) : Except String (List JVal) := do
  let _event_type ← pget webhook_data "event_type"
  let rule_id ← pget webhook_data "rule_id"
  let rule_tag ← pget webhook_data "rule_tag"
  let tweets ← pgetD webhook_data "tweets" (.arr [])
  match tweets with
  | .arr ts => ts.mapM (extract rule_id rule_tag)
  | _ => .error "TypeError"

/-- `process_tweet_data` of `monitor.py`: any exception inside the `try:` is
caught by the `except Exception` handler, which returns `[]`. -/
def process_tweet_data (webhook_data : JVal) : List JVal :=
  match processTweetsBodyWith extractTweet webhook_data with
  | .ok processed_tweets => processed_tweets
  | .error _ => []

/-- `process_tweet_data` of `api/webhook.py` (same control flow, records carry
`processed_at`). -/
def process_tweet_data_serverless (now : String) (webhook_data : JVal) : List JVal :=
  match processTweetsBodyWith (extractTweetServerless now) webhook_data with
  | .ok processed_tweets => processed_tweets
  | .error _ => []

/-!
## `save_tweets_to_file` (monitor.py lines 101-124)

The function reads today's partition file (a JSON array) if it exists,
extends it with the new records and writes the result back.  The file is
modelled as `Option (List JVal)`; the model is the error-free execution (any
I/O or JSON error is caught, logged and leaves the function as a no-op, and
no claim quantifies over that path).  The first component of the result is
the Python return value: the function body contains no `return` statement,
so it returns `None`.
-/

/-- `save_tweets_to_file`: `(python return value, new file contents)`. -/
def save_tweets_to_file (tweets : List JVal) (file : Option (List JVal)) :
    JVal × Option (List JVal) :=
  let existing_tweets := file.getD []
  (JVal.null, some (existing_tweets ++ tweets))

/-!
## `verify_webhook_request` (monitor.py lines 40-53, webhook.py lines 23-39)

`request.headers.get("X-API-Key")` is `none` when the header is absent.
`if not received_api_key:` is true for `None` and for the empty string.
`monitor.py` reads `API_KEY` as a plain string (startup aborts when it is
falsy, so the server only runs with a non-empty secret); `api/webhook.py`
reads it as `os.environ.get` (possibly absent) and checks `if not API_KEY:`
first.
-/

/-- `verify_webhook_request` of `monitor.py`. -/
def verify_webhook_request (api_key : String) (hdr : Option String) :
    Bool × String :=
  let received_api_key := hdr
  if received_api_key = none ∨ received_api_key = some "" then
    (false, "Missing X-API-Key header")
  else if received_api_key ≠ some api_key then
    (false, "Invalid API key")
  else
    (true, "Verified")

/-- `verify_webhook_request` of `api/webhook.py` (serverless): first fails
when no secret is configured (`API_KEY` absent or empty), then proceeds as
the standalone variant. -/
def verify_webhook_request_serverless (api_key : Option String)
    (hdr : Option String) : Bool × String :=
  if api_key = none ∨ api_key = some "" then
    (false, "API key not configured")
  else
    let received_api_key := hdr
    if received_api_key = none ∨ received_api_key = some "" then
      (false, "Missing X-API-Key header")
    else if received_api_key ≠ api_key then
      (false, "Invalid API key")
    else
      (true, "Verified")

/-!
## `webhook_handler` (monitor.py lines 126-174)

Inputs: the configured secret, the `X-API-Key` header, the result of
`request.get_json()` (`none` when the body is absent or not valid JSON), and
the current contents of today's partition file.  Output: HTTP status, the
JSON object returned by `jsonify`, and the file contents afterwards.  The
model is the path on which no component raises; the outer `except` (→ 500)
is unreachable in the model because every modelled component is total.
-/

/-- Result of one request to POST `/webhook`. -/
structure WebhookResult where
  status : Nat
  response : List (String × JVal)
  file : Option (List JVal)
deriving Repr, DecidableEq

/-- `webhook_handler` of `monitor.py`. -/
def webhook_handler (api_key : String) (hdr : Option String)
    (body : Option JVal) (file : Option (List JVal)) : WebhookResult :=
  let (is_valid, _message) := verify_webhook_request api_key hdr
  if !is_valid then
    ⟨401, [("error", .str "Unauthorized")], file⟩
  else
    match body with
    | none => ⟨400, [("error", .str "No JSON data provided")], file⟩
    | some webhook_data =>
      if !(pyTruthy webhook_data) then
        ⟨400, [("error", .str "No JSON data provided")], file⟩
      else
        let processed_tweets := process_tweet_data webhook_data
        if !processed_tweets.isEmpty then
          let file' := (save_tweets_to_file processed_tweets file).2
          ⟨200, [("status", .str "success"),
                 ("message", .str ("Processed " ++ toString processed_tweets.length ++ " tweets")),
                 ("tweets_count", .num processed_tweets.length)], file'⟩
        else
          ⟨200, [("status", .str "success"),
                 ("message", .str "No tweets to process")], file⟩

/-!
## Derived notions used by the statements
-/

/-- Is the value a Python dict? -/
def isObj : JVal → Bool
  | .obj _ => true
  | _ => false

/-- A raw tweet entry on which the loop body of `process_tweet_data` cannot
raise: it is a dict, its `author` value (when the key is present) is a dict,
and its `text` value (when present) survives the log line's `[:100]` slice. -/
def wellFormedTweet : JVal → Bool
  | .obj kvs =>
      (match jlookup kvs "author" with
       | none => true
       | some a => isObj a)
      && sliceable ((jlookup kvs "text").getD (.str ""))
  | _ => false

/-- The record `process_tweet_data` builds for one entry, as a total
function (junk `.null` on entries whose processing raises). -/
def tweetRecord (rule_id rule_tag : JVal) (tweet : JVal) : JVal :=
  match extractTweet rule_id rule_tag tweet with
  | .ok r => r
  | .error _ => .null

/-!
## Helper lemmas
-/

theorem except_bind_ok {α β : Type} (a : α) (f : α → Except String β) :
    (Except.ok a >>= f) = f a := rfl

theorem except_bind_error {α β : Type} (e : String) (f : α → Except String β) :
    ((Except.error e : Except String α) >>= f) = .error e := rfl

theorem except_pure {α : Type} (a : α) : (pure a : Except String α) = .ok a := rfl

/-- `mapM` over entries that all succeed is the `map` of their results. -/
theorem mapM_ok_of_forall (g : JVal → Except String JVal) (f : JVal → JVal) :
    ∀ ts : List JVal, (∀ t ∈ ts, g t = .ok (f t)) →
      ts.mapM g = .ok (ts.map f) := by
  intro ts
  induction ts with
  | nil => intro _; rfl
  | cons x xs ih =>
    intro h
    rw [List.mapM_cons]
    rw [h x (List.mem_cons_self x xs), except_bind_ok,
        ih (fun t ht => h t (List.mem_cons_of_mem x ht)), except_bind_ok]
    rfl

/-- `mapM` over a list one of whose entries fails is an error. -/
theorem mapM_error_of_mem (g : JVal → Except String JVal) :
    ∀ (ts : List JVal) (t : JVal), t ∈ ts → (∃ e, g t = .error e) →
      ∃ eall, ts.mapM g = .error eall := by
  intro ts
  induction ts with
  | nil => intro t ht _; exact absurd ht (List.not_mem_nil t)
  | cons x xs ih =>
    intro t ht ⟨e, he⟩
    rw [List.mapM_cons]
    rcases List.mem_cons.mp ht with rfl | hmem
    · rw [he, except_bind_error]; exact ⟨e, rfl⟩
    · cases hx : g x with
      | error ex => rw [except_bind_error]; exact ⟨ex, rfl⟩
      | ok rx =>
        obtain ⟨eall, hall⟩ := ih t hmem ⟨e, he⟩
        rw [except_bind_ok, hall, except_bind_error]
        exact ⟨eall, rfl⟩

/-- Reduction of the `try:` body on a dict payload. -/
theorem processBodyWith_obj (extract : JVal → JVal → JVal → Except String JVal)
    (kvs : List (String × JVal)) :
    processTweetsBodyWith extract (.obj kvs) =
      match (jlookup kvs "tweets").getD (.arr []) with
      | .arr ts => ts.mapM (extract ((jlookup kvs "rule_id").getD .null)
                                    ((jlookup kvs "rule_tag").getD .null))
      | _ => .error "TypeError" := rfl

/-- `pget` only succeeds on dicts. -/
theorem pget_ok_isObj (o : JVal) (k : String) (v : JVal)
    (h : pget o k = .ok v) : ∃ kvs, o = .obj kvs := by
  cases o
  case obj kvs => exact ⟨kvs, rfl⟩
  all_goals simp [pget] at h

/-- Explicit value of `extractTweetFields` on an entry whose author value
reduces to a dict and whose text value is sliceable. -/
theorem extractTweetFields_ok (rid rtag : JVal) (kvs akvs : List (String × JVal))
    (ha : (jlookup kvs "author").getD (.obj []) = .obj akvs)
    (hs : sliceable ((jlookup kvs "text").getD (.str "")) = true) :
    extractTweetFields rid rtag (.obj kvs) =
      .ok [("id", (jlookup kvs "id").getD .null),
           ("text", (jlookup kvs "text").getD (.str "")),
           ("author", .obj [("id", (jlookup akvs "id").getD .null),
                            ("username", (jlookup akvs "username").getD .null),
                            ("name", (jlookup akvs "name").getD .null)]),
           ("created_at", (jlookup kvs "created_at").getD .null),
           ("metrics", .obj [("retweet_count", (jlookup kvs "retweet_count").getD (.num 0)),
                             ("like_count", (jlookup kvs "like_count").getD (.num 0)),
                             ("reply_count", (jlookup kvs "reply_count").getD (.num 0))]),
           ("rule_info", .obj [("rule_id", rid), ("rule_tag", rtag)])] := by
  unfold extractTweetFields
  simp only [pget, pgetD, except_bind_ok, ha, hs, Bool.not_true,
             Bool.false_eq_true, if_false, except_pure]

/-- On a well-formed entry the loop body succeeds and yields `tweetRecord`. -/
theorem extractTweet_wf (rid rtag : JVal) (t : JVal)
    (hwf : wellFormedTweet t = true) :
    extractTweet rid rtag t = .ok (tweetRecord rid rtag t) := by
  cases t with
  | obj kvs =>
    simp only [wellFormedTweet, Bool.and_eq_true] at hwf
    obtain ⟨ha, hs⟩ := hwf
    have hauth : ∃ akvs, (jlookup kvs "author").getD (.obj []) = .obj akvs := by
      cases hl : jlookup kvs "author" with
      | none => exact ⟨[], rfl⟩
      | some a =>
        rw [hl] at ha
        cases a
        case obj akvs => exact ⟨akvs, rfl⟩
        all_goals simp [isObj] at ha
    obtain ⟨akvs, hakvs⟩ := hauth
    rw [tweetRecord, extractTweet, extractTweetFields_ok rid rtag kvs akvs hakvs hs]
    rfl
  | null => simp [wellFormedTweet] at hwf
  | bool b => simp [wellFormedTweet] at hwf
  | num n => simp [wellFormedTweet] at hwf
  | str s => simp [wellFormedTweet] at hwf
  | arr xs => simp [wellFormedTweet] at hwf

/-- A well-formed entry is a dict whose author value reduces to a dict and
whose text value is sliceable. -/
theorem wellFormed_decomp (t : JVal) (hwf : wellFormedTweet t = true) :
    ∃ kvs akvs, t = .obj kvs
      ∧ (jlookup kvs "author").getD (.obj []) = .obj akvs
      ∧ sliceable ((jlookup kvs "text").getD (.str "")) = true := by
  cases t with
  | obj kvs =>
    simp only [wellFormedTweet, Bool.and_eq_true] at hwf
    obtain ⟨ha, hs⟩ := hwf
    have hauth : ∃ akvs, (jlookup kvs "author").getD (.obj []) = .obj akvs := by
      cases hl : jlookup kvs "author" with
      | none => exact ⟨[], rfl⟩
      | some a =>
        rw [hl] at ha
        cases a
        case obj akvs => exact ⟨akvs, rfl⟩
        all_goals simp [isObj] at ha
    obtain ⟨akvs, hakvs⟩ := hauth
    exact ⟨kvs, akvs, rfl, hakvs, hs⟩
  | null => simp [wellFormedTweet] at hwf
  | bool b => simp [wellFormedTweet] at hwf
  | num n => simp [wellFormedTweet] at hwf
  | str s => simp [wellFormedTweet] at hwf
  | arr xs => simp [wellFormedTweet] at hwf

/-- The record of a well-formed entry stores the payload's rule data under
`rule_info`. -/
theorem tweetRecord_rule_info (rid rtag : JVal) (t : JVal)
    (hwf : wellFormedTweet t = true) :
    pget (tweetRecord rid rtag t) "rule_info"
      = .ok (.obj [("rule_id", rid), ("rule_tag", rtag)]) := by
  obtain ⟨kvs, akvs, rfl, hakvs, hs⟩ := wellFormed_decomp t hwf
  simp only [tweetRecord, extractTweet, extractTweetFields_ok rid rtag kvs akvs hakvs hs,
             Except.map]
  simp [pget, jlookup]

/-- `pgetD` only succeeds on dicts. -/
theorem pgetD_ok_isObj (o : JVal) (k : String) (d v : JVal)
    (h : pgetD o k d = .ok v) : ∃ kvs, o = .obj kvs := by
  cases o
  case obj kvs => exact ⟨kvs, rfl⟩
  all_goals simp [pgetD] at h

/-- On a dict payload whose tweets are all well-formed, `process_tweet_data`
is the map of `tweetRecord` over the entries. -/
theorem process_obj_wf (kvs : List (String × JVal)) (ts : List JVal)
    (hts : (jlookup kvs "tweets").getD (.arr []) = .arr ts)
    (hwf : ∀ t ∈ ts, wellFormedTweet t = true) :
    process_tweet_data (.obj kvs)
      = ts.map (tweetRecord ((jlookup kvs "rule_id").getD .null)
                            ((jlookup kvs "rule_tag").getD .null)) := by
  simp only [process_tweet_data, processBodyWith_obj, hts]
  rw [mapM_ok_of_forall _ _ ts (fun t ht => extractTweet_wf _ _ t (hwf t ht))]

/-!
## Claim theorems
-/

/-- Claim C4: starting from prior partition contents `P`, appending batch `A`
and then batch `B` on the same day (no error, no concurrent interference)
leaves the daily partition equal to `P` followed by `A` followed by `B`, with
relative order of records preserved. -/
theorem C4_append_twice_same_day (P A B : List JVal) :
    (save_tweets_to_file B (save_tweets_to_file A (some P)).2).2
      = some (P ++ A ++ B) := by
  simp [save_tweets_to_file]

/-- Claim C5, counterexample: `save_tweets_to_file` passed one record returns
Python `None`, which is not the count `1` the claim promises (the function
body has no `return` statement). -/
theorem C5_returns_none_counterexample :
    (save_tweets_to_file [JVal.null] none).1 = JVal.null
    ∧ JVal.null ≠ JVal.num 1 := by
  exact ⟨rfl, by decide⟩

/-- Claim C5 as amended: `save_tweets_to_file` returns `None` for every batch
(the count written is only logged), while writing every record: the new
partition contents are the prior contents followed by the batch. -/
theorem C5_append_return_value (tweets : List JVal) (file : Option (List JVal)) :
    (save_tweets_to_file tweets file).1 = JVal.null
    ∧ (save_tweets_to_file tweets file).2 = some (file.getD [] ++ tweets) :=
  ⟨rfl, rfl⟩

/-- Claim C2 (code bug): a payload whose `tweets` list holds one malformed
entry (`42`, an int, on which `.get` raises `AttributeError`) next to a
well-formed entry yields `[]` — the well-formed entry is NOT normalized,
contradicting the claim that one bad entry never prevents the others. -/
theorem C2_malformed_entry_empties_batch :
    wellFormedTweet (.obj [("id", .str "1")]) = true
    ∧ extractTweet (.str "r1") (.str "t1") (.num 42) = .error "AttributeError"
    ∧ process_tweet_data (.obj [("rule_id", .str "r1"), ("rule_tag", .str "t1"),
        ("tweets", .arr [.num 42, .obj [("id", .str "1")]])]) = [] :=
  ⟨rfl, rfl, rfl⟩

/-- Claim C10: a request whose `X-API-Key` header is present but empty is
rejected with the missing-header reason — the falsy value is treated like an
absent header, never compared with the secret, so it is never authenticated
even when the configured secret is itself the empty string (the standalone
variant holds for every secret; the serverless variant behaves the same
whenever a secret is configured). -/
theorem C10_empty_header_missing_reason (api_key : String) :
    verify_webhook_request api_key (some "") = (false, "Missing X-API-Key header")
    ∧ ∀ cfg : Option String, ¬(cfg = none ∨ cfg = some "") →
        verify_webhook_request_serverless cfg (some "")
          = (false, "Missing X-API-Key header") := by
  refine ⟨by simp [verify_webhook_request], ?_⟩
  intro cfg hcfg
  simp [verify_webhook_request_serverless, hcfg]

/-- Claim C10, witness at a configured serverless secret. -/
theorem C10_empty_header_missing_reason_witness :
    verify_webhook_request_serverless (some "k") (some "")
      = (false, "Missing X-API-Key header") :=
  (C10_empty_header_missing_reason "k").2 (some "k") (by decide)

/-- Claim C8, counterexample: with secret `"secret123"` and the header
present with value `""` (which differs from the secret), the claim demands
the invalid-key reason, but the code reports the missing-header reason. -/
theorem C8_empty_header_reason_counterexample :
    ("" : String) ≠ "secret123"
    ∧ verify_webhook_request "secret123" (some "")
        = (false, "Missing X-API-Key header")
    ∧ ("Missing X-API-Key header" : String) ≠ "Invalid API key" := by
  exact ⟨by decide, rfl, by decide⟩

/-- Claim C8 as amended: with a non-empty configured secret, verification
succeeds iff the header is present with exactly the secret as value; an
absent header fails with the missing-header reason; a present, non-empty but
unequal value fails with the invalid-key reason; a present but EMPTY value is
reported as a missing header (not as an invalid key); the serverless variant
with no secret configured (absent or empty) fails every request with the
not-configured reason regardless of headers, and with a configured secret it
coincides with the standalone variant. -/
theorem C8_verify_characterization (api_key : String) (hk : api_key ≠ "")
    (hdr : Option String) :
    ((verify_webhook_request api_key hdr).1 = true ↔ hdr = some api_key)
    ∧ (hdr = none → verify_webhook_request api_key hdr
        = (false, "Missing X-API-Key header"))
    ∧ (∀ v, hdr = some v → v ≠ "" → v ≠ api_key →
        verify_webhook_request api_key hdr = (false, "Invalid API key"))
    ∧ (hdr = some "" → verify_webhook_request api_key hdr
        = (false, "Missing X-API-Key header"))
    ∧ (∀ cfg : Option String, (cfg = none ∨ cfg = some "") →
        verify_webhook_request_serverless cfg hdr
          = (false, "API key not configured"))
    ∧ verify_webhook_request_serverless (some api_key) hdr
        = verify_webhook_request api_key hdr := by
  refine ⟨?_, ?_, ?_, ?_, ?_, ?_⟩
  · cases hdr with
    | none => simp [verify_webhook_request]
    | some v =>
      by_cases hv : v = ""
      · subst hv; simp [verify_webhook_request, Ne.symm hk]
      · by_cases hve : v = api_key
        · subst hve; simp [verify_webhook_request, hv]
        · simp [verify_webhook_request, hv, hve]
  · intro h; subst h; simp [verify_webhook_request]
  · intro v h hv hve; subst h; simp [verify_webhook_request, hv, hve]
  · intro h; subst h; simp [verify_webhook_request]
  · intro cfg hcfg; simp [verify_webhook_request_serverless, hcfg]
  · simp [verify_webhook_request_serverless, verify_webhook_request, hk]

/-- Claim C8, witness: concrete successful verification through the
characterization. -/
theorem C8_verify_characterization_witness :
    (verify_webhook_request "secret123" (some "secret123")).1 = true :=
  (C8_verify_characterization "secret123" (by decide) (some "secret123")).1.mpr rfl

/-- Claim C1: on a valid payload (a dict carrying `rule_id`, `rule_tag` and a
tweets list of well-formed entries), `process_tweet_data` produces exactly
one record per entry, in input order (the result IS the map of the per-entry
record builder over the input sequence), and every record's `rule_info`
carries the payload's `rule_id` and `rule_tag`. -/
theorem C1_normalize_count_order_rule_info (w rid rtag : JVal) (ts : List JVal)
    (hrid : pget w "rule_id" = .ok rid) (hrtag : pget w "rule_tag" = .ok rtag)
    (hts : pgetD w "tweets" (.arr []) = .ok (.arr ts))
    (hwf : ∀ t ∈ ts, wellFormedTweet t = true) :
    (process_tweet_data w).length = ts.length
    ∧ process_tweet_data w = ts.map (tweetRecord rid rtag)
    ∧ ∀ t ∈ ts, extractTweet rid rtag t = .ok (tweetRecord rid rtag t)
        ∧ pget (tweetRecord rid rtag t) "rule_info"
            = .ok (.obj [("rule_id", rid), ("rule_tag", rtag)]) := by
  obtain ⟨kvs, rfl⟩ := pget_ok_isObj w "rule_id" rid hrid
  simp only [pget, Except.ok.injEq] at hrid hrtag
  simp only [pgetD, Except.ok.injEq] at hts
  have hproc := process_obj_wf kvs ts hts hwf
  rw [hrid, hrtag] at hproc
  refine ⟨by rw [hproc, List.length_map], hproc, ?_⟩
  intro t ht
  exact ⟨extractTweet_wf rid rtag t (hwf t ht),
         tweetRecord_rule_info rid rtag t (hwf t ht)⟩

/-- Claim C1, witness: a one-entry payload yields one record. -/
theorem C1_normalize_count_order_rule_info_witness :
    (process_tweet_data (.obj [("rule_id", .str "r1"), ("rule_tag", .str "demo"),
      ("tweets", .arr [.obj [("id", .str "1")]])])).length = 1 :=
  (C1_normalize_count_order_rule_info
    (.obj [("rule_id", .str "r1"), ("rule_tag", .str "demo"),
      ("tweets", .arr [.obj [("id", .str "1")]])]) (.str "r1") (.str "demo")
    [.obj [("id", .str "1")]] rfl rfl rfl
    (fun t ht => by rw [List.mem_singleton] at ht; subst ht; rfl)).1

/-- Claim C3: `process_tweet_data` is total (it is a Lean function, mirroring
the `try/except` that catches every exception); whenever deriving any field
of any entry raises, the whole call returns `[]` — never partial results —
and in every run the result is either `[]` or exactly the successful value of
the `try:` body, so fail-soft-to-empty is the only failure mode. -/
theorem C3_fail_soft_to_empty (w rid rtag : JVal) (ts : List JVal)
    (hrid : pget w "rule_id" = .ok rid) (hrtag : pget w "rule_tag" = .ok rtag)
    (hts : pgetD w "tweets" (.arr []) = .ok (.arr ts)) :
    ((∃ t ∈ ts, ∃ e, extractTweet rid rtag t = .error e) → process_tweet_data w = [])
    ∧ (process_tweet_data w = []
       ∨ processTweetsBodyWith extractTweet w = .ok (process_tweet_data w)) := by
  obtain ⟨kvs, rfl⟩ := pget_ok_isObj w "rule_id" rid hrid
  simp only [pget, Except.ok.injEq] at hrid hrtag
  simp only [pgetD, Except.ok.injEq] at hts
  constructor
  · rintro ⟨t, ht, e, he⟩
    obtain ⟨eall, hall⟩ := mapM_error_of_mem (extractTweet rid rtag) ts t ht ⟨e, he⟩
    simp only [process_tweet_data, processBodyWith_obj, hts, hrid, hrtag, hall]
  · cases hb : processTweetsBodyWith extractTweet (.obj kvs) with
    | ok l => right; simp [process_tweet_data, hb]
    | error e => left; simp [process_tweet_data, hb]

/-- Claim C3, witness: a payload with one raising entry yields `[]`. -/
theorem C3_fail_soft_to_empty_witness :
    process_tweet_data (.obj [("tweets", .arr [.num 7])]) = [] :=
  (C3_fail_soft_to_empty (.obj [("tweets", .arr [.num 7])]) .null .null
    [.num 7] rfl rfl rfl).1
    ⟨.num 7, List.mem_singleton.mpr rfl, "AttributeError", rfl⟩

/-- Claim C9, counterexample: an entry with no `author` key but with a
non-sliceable `text` value (`5`) raises at the log line's `text[:100]`, so
`process_tweet_data` yields `[]` instead of a record with null author
sub-fields — the claim fails without a side condition on `text`. -/
theorem C9_unsliceable_text_counterexample :
    jlookup [("text", JVal.num 5)] "author" = none
    ∧ extractTweet .null .null (.obj [("text", .num 5)]) = .error "TypeError"
    ∧ process_tweet_data (.obj [("tweets", .arr [.obj [("text", .num 5)]])]) = [] :=
  ⟨rfl, rfl, rfl⟩

/-- Claim C9 as amended: for every raw tweet entry whose `author` key is
entirely absent AND whose `text` value (when present) survives the log
slice, processing the entry does not raise and its record carries all three
author sub-fields as null; a payload holding that entry yields exactly its
record. -/
theorem C9_absent_author_null_fields (rid rtag : JVal) (kvs : List (String × JVal))
    (hauthor : jlookup kvs "author" = none)
    (htext : sliceable ((jlookup kvs "text").getD (.str "")) = true) :
    extractTweet rid rtag (.obj kvs) = .ok (tweetRecord rid rtag (.obj kvs))
    ∧ pget (tweetRecord rid rtag (.obj kvs)) "author"
        = .ok (.obj [("id", .null), ("username", .null), ("name", .null)])
    ∧ process_tweet_data (.obj [("rule_id", rid), ("rule_tag", rtag),
        ("tweets", .arr [.obj kvs])]) = [tweetRecord rid rtag (.obj kvs)] := by
  have hwf : wellFormedTweet (.obj kvs) = true := by
    simp [wellFormedTweet, hauthor, htext]
  have hakvs : (jlookup kvs "author").getD (.obj []) = .obj [] := by
    rw [hauthor]; rfl
  refine ⟨extractTweet_wf rid rtag _ hwf, ?_, ?_⟩
  · simp only [tweetRecord, extractTweet,
      extractTweetFields_ok rid rtag kvs [] hakvs htext, Except.map]
    simp [pget, jlookup]
  · have h := process_obj_wf [("rule_id", rid), ("rule_tag", rtag),
        ("tweets", .arr [.obj kvs])] [.obj kvs] rfl
        (by intro t ht; rw [List.mem_singleton] at ht; subst ht; exact hwf)
    exact h

/-- Claim C9, witness: the empty dict entry (author absent, text absent) is
normalized into its record. -/
theorem C9_absent_author_null_fields_witness :
    process_tweet_data (.obj [("rule_id", .str "r1"), ("rule_tag", .str "demo"),
        ("tweets", .arr [.obj []])]) = [tweetRecord (.str "r1") (.str "demo") (.obj [])] :=
  (C9_absent_author_null_fields (.str "r1") (.str "demo") [] rfl rfl).2.2

/-- Claim C7: a request that passes authentication but carries no parseable
JSON body (`request.get_json()` yields nothing) is answered 400 and the
handler stops before normalization and persistence: the response is exactly
the no-data error and the partition file is untouched. -/
theorem C7_missing_body_400 (api_key : String) (hdr : Option String)
    (file : Option (List JVal))
    (hauth : (verify_webhook_request api_key hdr).1 = true) :
    webhook_handler api_key hdr none file
      = ⟨400, [("error", .str "No JSON data provided")], file⟩ := by
  rcases hver : verify_webhook_request api_key hdr with ⟨ok, msg⟩
  rw [hver] at hauth
  simp only at hauth
  subst hauth
  simp [webhook_handler, hver]

/-- Claim C7, witness: authenticated request with absent body. -/
theorem C7_missing_body_400_witness :
    webhook_handler "secret123" (some "secret123") none none
      = ⟨400, [("error", .str "No JSON data provided")], none⟩ :=
  C7_missing_body_400 "secret123" (some "secret123") none (by decide)

/-- Claim C6, counterexample: a correctly authenticated request with valid
JSON and zero tweet entries is answered 200, but the response carries NO
`tweets_count` field at all (the zero-tweets branch omits it), contradicting
the claimed `tweets_count: 0`. -/
theorem C6_zero_tweets_no_count_counterexample :
    (webhook_handler "secret123" (some "secret123")
        (some (.obj [("tweets", .arr [])])) none).status = 200
    ∧ jlookup (webhook_handler "secret123" (some "secret123")
        (some (.obj [("tweets", .arr [])])) none).response "tweets_count" = none :=
  ⟨rfl, rfl⟩

/-- Claim C6 as amended: with a non-empty configured secret, a request with
no `X-API-Key` header is answered 401; present-but-wrong value is answered
401; correct value with a truthy JSON dict body whose tweets list is empty
is answered 200 with body `{status: success, message: No tweets to process}`
(no `tweets_count` field) and an unchanged partition file. -/
theorem C6_webhook_statuses (api_key : String) (hk : api_key ≠ "") :
    (∀ body file, (webhook_handler api_key none body file).status = 401)
    ∧ (∀ v body file, v ≠ api_key →
        (webhook_handler api_key (some v) body file).status = 401)
    ∧ (∀ b file, pyTruthy b = true → pgetD b "tweets" (.arr []) = .ok (.arr []) →
        webhook_handler api_key (some api_key) (some b) file
          = ⟨200, [("status", .str "success"),
                   ("message", .str "No tweets to process")], file⟩) := by
  refine ⟨?_, ?_, ?_⟩
  · intro body file
    simp [webhook_handler, verify_webhook_request]
  · intro v body file hv
    by_cases hve : v = ""
    · subst hve; simp [webhook_handler, verify_webhook_request]
    · simp [webhook_handler, verify_webhook_request, hve, hv]
  · intro b file htruthy hts
    obtain ⟨kvs, rfl⟩ := pgetD_ok_isObj b "tweets" (.arr []) (.arr []) hts
    simp only [pgetD, Except.ok.injEq] at hts
    have hproc : process_tweet_data (.obj kvs) = [] := by
      rw [process_obj_wf kvs [] hts (by intro t ht; exact absurd ht (List.not_mem_nil t))]
      rfl
    simp [webhook_handler, verify_webhook_request, hk, htruthy, hproc]

/-- Claim C6, witness: a header-less request is rejected with 401. -/
theorem C6_webhook_statuses_witness :
    (webhook_handler "secret123" none (some (.obj [("tweets", .arr [])])) none).status
      = 401 :=
  (C6_webhook_statuses "secret123" (by decide)).1 (some (.obj [("tweets", .arr [])])) none
